import Mathlib

/-!
Verification of the financial aggregation engine of FinanceAiReporter
(`src/utils/financial_utils.py` and `src/utils/data_utils.py`) against its
natural-language specification.

Modelling conventions (shallow embedding):
* A pandas `DataFrame` becomes a `Table`: a list of `Row`s plus one boolean
  flag per optional column recording whether that column is present.  A row
  stores a value for every potential column; the engine's functions consult a
  field only when the corresponding presence flag is set, exactly as the
  Python code guards every access with `'col' in df.columns`.
* Monetary amounts are rationals (`ℚ`).  `pd.to_numeric(..., errors='coerce')`
  on an already-numeric column is the identity, so inside the financial
  engine (whose tables are numeric after ingestion) the coercion is modelled
  as the identity.  Dates are `Option Date` (`none` = `NaT`); pandas
  comparisons against `NaT` are false, matching the `Option` semantics below.
* Python dicts keyed by strings become association lists `List (String × ℚ)`
  in the (sorted) order pandas `groupby` yields its groups.
* `float('inf')` sentinels become the `Pct.inf` constructor of an explicit
  sum type; all arithmetic is exact rational arithmetic, so "never returns
  infinity / NaN" facts appear as the totality of the Lean functions.
* A Python function that can raise becomes a function into `Except String _`.
-/

/-- A calendar date, as produced by `pd.to_datetime` on well-formed input. -/
structure Date where
  year : Nat
  month : Nat
  day : Nat
deriving DecidableEq, Repr

/-- Numeric key giving the calendar order of dates (months ≤ 12, days ≤ 31,
as enforced by the date parser, so distinct dates get distinct keys and the
order agrees with chronological order). -/
def Date.key (d : Date) : Nat := d.year * 10000 + d.month * 100 + d.day

/-- Boolean date comparison used for filters and sorting. -/
def Date.leb (a b : Date) : Bool := decide (a.key ≤ b.key)

/-- One transaction row.  Every potential column has a slot; whether the
column actually exists in the table is recorded by the `Table` flags. -/
structure Row where
  date : Option Date
  amount : ℚ
  description : String
  category : String
  subcategory : String
  account_type : String
  transaction_type : String
deriving DecidableEq, Repr

/-- A default row: convenient base for building concrete examples. -/
def Row.base : Row := ⟨none, 0, "", "", "", "", ""⟩

/-- A transaction table: the rows plus column-presence flags. -/
structure Table where
  hasDate : Bool
  hasAmount : Bool
  hasDescription : Bool
  hasCategory : Bool
  hasSubcategory : Bool
  hasAccountType : Bool
  hasTransactionType : Bool
  rows : List Row
deriving DecidableEq, Repr

/-- Lower-casing of a string, character by character (`str.lower()`). -/
def lowerStr (s : String) : String := ⟨s.data.map Char.toLower⟩

/-- Check that `pat` occurs as a contiguous sublist of `l` starting at the
front or further in (`keyword in desc` for Python strings). -/
def listContains : List Char → List Char → Bool
  | _, [] => true
  | [], _ :: _ => false
  | c :: cs, pat => (pat.isPrefixOf (c :: cs)) || listContains cs pat

/-- Substring test `needle in haystack` on Python strings. -/
def strContains (haystack needle : String) : Bool :=
  listContains haystack.data needle.data

/-- Income keyword list of `categorize_transactions`. -/
def income_keywords : List String :=
  ["salary", "income", "revenue", "deposit", "interest", "dividend"]

/-- Expense keyword list of `categorize_transactions`. -/
def expense_keywords : List String :=
  ["purchase", "payment", "expense", "fee", "bill", "subscription"]

/-- The row-wise `assign_category` closure of `categorize_transactions`,
transcribed with its (unreachable-result) keyword branches intact. -/
def assign_category (r : Row) : String :=
  let desc := lowerStr r.description
  if 0 < r.amount then
    if income_keywords.any (fun k => strContains desc k) then "Income" else "Income"
  else if r.amount < 0 then
    if expense_keywords.any (fun k => strContains desc k) then "Expense" else "Expense"
  else
    "Unknown"

/-- The sign-only classification the spec says the classifier reduces to. -/
def signCategory (a : ℚ) : String :=
  if 0 < a then "Income" else if a < 0 then "Expense" else "Unknown"

/-- Model of `categorize_transactions`: keeps a pre-existing `category`
column as is; otherwise, when both `description` and `amount` exist, adds a
`category` column via `assign_category`; otherwise returns the table
unchanged (the numeric coercion of `amount` is the identity here). -/
def categorize_transactions (t : Table) : Table :=
  if t.hasCategory then t
  else if t.hasDescription && t.hasAmount then
    { t with hasCategory := true
             rows := t.rows.map (fun r => { r with category := assign_category r }) }
  else t

/-- Inclusive date-range predicate used by the calculators' filters: a row
passes `data['date'] >= start` (resp. `<= end`) only when its date is an
actual date satisfying the bound; `NaT` rows are dropped by either bound. -/
def inRange (start? end? : Option Date) (r : Row) : Bool :=
  (match start? with
   | none => true
   | some s => match r.date with
     | none => false
     | some d => Date.leb s d) &&
  (match end? with
   | none => true
   | some e => match r.date with
     | none => false
     | some d => Date.leb d e)

/-- Sum of the amounts of the rows in a given category. -/
def sumCat (c : String) (rows : List Row) : ℚ :=
  (rows.filter (fun r => r.category = c)).foldr (fun r acc => r.amount + acc) 0

/-- Distinct keys of `rows` under `key`, in sorted order — the iteration
order of `pandas.groupby` (pandas sorts group keys; sorts are modelled by
the stable `List.insertionSort`). -/
def sortedKeys (key : Row → String) (rows : List Row) : List String :=
  List.insertionSort (fun a b => a ≤ b) ((rows.map key).dedup)

/-- Group the rows of one category by `key` and sum each group with `f`
applied to the group sum (`groupby(...)['amount'].sum()`). -/
def groupSums (key : Row → String) (f : ℚ → ℚ) (rows : List Row) : List (String × ℚ) :=
  (sortedKeys key rows).map (fun k =>
    (k, f ((rows.filter (fun r => key r = k)).foldr (fun r acc => r.amount + acc) 0)))

/-- Income statement aggregate (`calculate_income_statement`'s dict). -/
structure IncomeStatement where
  total_income : ℚ
  total_expenses : ℚ
  net_income : ℚ
  expense_breakdown : List (String × ℚ)
  income_breakdown : List (String × ℚ)
deriving DecidableEq, Repr

/-- The filtered, classified view a statement calculator reduces over:
`categorize_transactions` then the `[start, end]` filter, the latter applied
only when a `date` column exists (the Python code never filters without
one). -/
def filteredView (t : Table) (start? end? : Option Date) : Table :=
  let data := categorize_transactions t
  if t.hasDate then { data with rows := data.rows.filter (inRange start? end?) } else data

/-- Model of `calculate_income_statement`.  Returns the aggregate when the
classified table has `amount` and `category` columns, else the inline error
marker (`{'error': ...}`). -/
def calculate_income_statement (t : Table) (start? end? : Option Date) :
    Except String IncomeStatement :=
  let data := filteredView t start? end?
  if data.hasAmount && data.hasCategory then
    let income := sumCat "Income" data.rows
    let expenses := |sumCat "Expense" data.rows|
    Except.ok
      { total_income := income
        total_expenses := expenses
        net_income := income - expenses
        expense_breakdown :=
          if data.hasSubcategory then
            groupSums (·.subcategory) (fun q => |q|)
              (data.rows.filter (fun r => r.category = "Expense"))
          else []
        income_breakdown :=
          if data.hasSubcategory then
            groupSums (·.subcategory) id
              (data.rows.filter (fun r => r.category = "Income"))
          else [] }
  else
    Except.error "Data format does not contain required columns (amount, category)"

/-- Balance sheet aggregate (`calculate_balance_sheet`'s dict; the
`as_of_date` timestamp string is presentation-only and not modelled). -/
structure BalanceSheet where
  total_assets : ℚ
  total_liabilities : ℚ
  total_equity : ℚ
deriving DecidableEq, Repr

/-- Account-type keyword buckets of `calculate_balance_sheet`. -/
def asset_accounts : List String := ["cash", "bank", "investment", "receivable", "asset"]

/-- Liability-side keyword bucket. -/
def liability_accounts : List String := ["loan", "credit", "payable", "debt", "liability"]

/-- Model of `calculate_balance_sheet`: optional `<= as_of` filter, then
either the `account_type` keyword bucketing or the sign-based fallback; in
every path equity is the residual assets − liabilities. -/
def calculate_balance_sheet (t : Table) (asOf? : Option Date) : BalanceSheet :=
  let data := categorize_transactions t
  let rows := if t.hasDate then data.rows.filter (inRange none asOf?) else data.rows
  if data.hasAccountType && data.hasAmount then
    let assets := (rows.filter (fun r => asset_accounts.contains (lowerStr r.account_type))).foldr
      (fun r acc => r.amount + acc) 0
    let liabilities := |(rows.filter
      (fun r => liability_accounts.contains (lowerStr r.account_type))).foldr
      (fun r acc => r.amount + acc) 0|
    { total_assets := assets, total_liabilities := liabilities,
      total_equity := assets - liabilities }
  else if data.hasAmount then
    let assets := (rows.filter (fun r => 0 < r.amount)).foldr (fun r acc => r.amount + acc) 0
    let liabilities := |(rows.filter (fun r => r.amount < 0)).foldr
      (fun r acc => r.amount + acc) 0|
    { total_assets := assets, total_liabilities := liabilities,
      total_equity := assets - liabilities }
  else
    { total_assets := 0, total_liabilities := 0, total_equity := 0 }

/-- Cash flow aggregate (`calculate_cash_flow`'s dict). -/
structure CashFlow where
  operating_cash_flow : ℚ
  investing_cash_flow : ℚ
  financing_cash_flow : ℚ
  net_cash_flow : ℚ
deriving DecidableEq, Repr

/-- Operating bucket keywords of `calculate_cash_flow`. -/
def operating_types : List String := ["revenue", "expense", "sale", "purchase", "operating"]

/-- Investing bucket keywords. -/
def investing_types : List String := ["investment", "asset purchase", "asset sale", "investing"]

/-- Financing bucket keywords. -/
def financing_types : List String := ["loan", "dividend", "equity", "financing"]

/-- Model of `calculate_cash_flow`: date filter, then either the
`transaction_type` keyword bucketing or the classified income − expenses as
operating cash flow; the net is always the sum of the three components. -/
def calculate_cash_flow (t : Table) (start? end? : Option Date) : CashFlow :=
  let rows := if t.hasDate then t.rows.filter (inRange start? end?) else t.rows
  if t.hasTransactionType && t.hasAmount then
    let op := (rows.filter (fun r => operating_types.contains (lowerStr r.transaction_type))).foldr
      (fun r acc => r.amount + acc) 0
    let inv := (rows.filter (fun r => investing_types.contains (lowerStr r.transaction_type))).foldr
      (fun r acc => r.amount + acc) 0
    let fin := (rows.filter (fun r => financing_types.contains (lowerStr r.transaction_type))).foldr
      (fun r acc => r.amount + acc) 0
    { operating_cash_flow := op, investing_cash_flow := inv, financing_cash_flow := fin,
      net_cash_flow := op + inv + fin }
  else
    let ct := categorize_transactions { t with rows := rows }
    let op := if ct.hasCategory && ct.hasAmount then
        sumCat "Income" ct.rows - |sumCat "Expense" ct.rows|
      else 0
    { operating_cash_flow := op, investing_cash_flow := 0, financing_cash_flow := 0,
      net_cash_flow := op + 0 + 0 }

/-- Financial ratios record (`calculate_financial_ratios`'s dict). -/
structure Ratios where
  profit_margin : ℚ
  return_on_assets : ℚ
  return_on_equity : ℚ
  debt_to_equity : ℚ
  asset_to_liability : ℚ
deriving DecidableEq, Repr

/-- The `income_statement.get(key, 0)` access: an error-marker result yields
the default 0. -/
def isGet (e : Except String IncomeStatement) (f : IncomeStatement → ℚ) : ℚ :=
  match e with
  | Except.ok s => f s
  | Except.error _ => 0

/-- Model of `calculate_financial_ratios`: recomputes income statement and
balance sheet over the full table, then forms each ratio guarded by the
Python truthiness test `(num / den) if den else 0` — so exactly a zero
denominator yields 0, and any non-zero (including negative) denominator
yields the quotient. -/
def calculate_financial_ratios (t : Table) : Ratios :=
  let is := calculate_income_statement t none none
  let bs := calculate_balance_sheet t none
  let total_revenue := isGet is (·.total_income)
  let net_income := isGet is (·.net_income)
  let total_assets := bs.total_assets
  let total_liabilities := bs.total_liabilities
  let total_equity := bs.total_equity
  { profit_margin := if total_revenue ≠ 0 then net_income / total_revenue else 0
    return_on_assets := if total_assets ≠ 0 then net_income / total_assets else 0
    return_on_equity := if total_equity ≠ 0 then net_income / total_equity else 0
    debt_to_equity := if total_equity ≠ 0 then total_liabilities / total_equity else 0
    asset_to_liability := if total_liabilities ≠ 0 then total_assets / total_liabilities else 0 }

/-- A percentage-change value: a finite percentage or the `float('inf')`
unbounded-increase sentinel. -/
inductive Pct where
  | num : ℚ → Pct
  | inf : Pct
deriving DecidableEq, Repr

/-- One monthly period bucket of `summarize_financial_data`; the trend
fields are `none` on the chronologically first bucket and `some` afterwards,
mirroring the keys that the Python dict only gains from the trend loop. -/
structure Bucket where
  period : String
  income : ℚ
  expense : ℚ
  net : ℚ
  income_categories : List (String × ℚ)
  expense_categories : List (String × ℚ)
  income_change : Option ℚ
  income_change_pct : Option Pct
  expense_change : Option ℚ
  expense_change_pct : Option Pct
  net_change : Option ℚ
  net_change_pct : Option Pct
deriving DecidableEq, Repr

instance : Inhabited Bucket := ⟨⟨"", 0, 0, 0, [], [], none, none, none, none, none, none⟩⟩

/-- The body of the per-bucket trend loop: annotate `cur` with deltas and
percentage changes relative to `prev`. -/
def addTrend (prev cur : Bucket) : Bucket :=
  let ic := cur.income - prev.income
  let icp := if 0 < prev.income then Pct.num (ic / prev.income * 100)
             else if ic = 0 then Pct.num 0 else Pct.inf
  let ec := cur.expense - prev.expense
  let ecp := if 0 < prev.expense then Pct.num (ec / prev.expense * 100)
             else if ec = 0 then Pct.num 0 else Pct.inf
  let nc := cur.net - prev.net
  let ncp := if prev.net ≠ 0 then Pct.num (nc / |prev.net| * 100)
             else if nc = 0 then Pct.num 0 else Pct.inf
  { cur with income_change := some ic, income_change_pct := some icp,
             expense_change := some ec, expense_change_pct := some ecp,
             net_change := some nc, net_change_pct := some ncp }

/-- Annotate every bucket after `prev` with trends, threading the (already
annotated) predecessor exactly as the Python loop indexes `i-1`. -/
def addTrends (prev : Bucket) : List Bucket → List Bucket
  | [] => []
  | c :: cs => let c' := addTrend prev c; c' :: addTrends c' cs

/-- Full trend annotation of the chronological bucket list: the first bucket
is left untouched. -/
def annotate : List Bucket → List Bucket
  | [] => []
  | b :: bs => b :: addTrends b bs

/-- Overall first-vs-last trend block of `summarize_financial_data`. -/
structure Trends where
  period_count : Nat
  start_period : String
  end_period : String
  income_change : ℚ
  income_change_pct : ℚ
  expense_change : ℚ
  expense_change_pct : ℚ
  net_change : ℚ
  net_change_pct : ℚ
  income_trend : String
  expense_trend : String
  net_trend : String
deriving DecidableEq, Repr

/-- The overall-trends computation over the annotated bucket list (read off
`time_periods[0]` and `time_periods[-1]`).  Note its percentage rule: the
zero/negative-prior case yields 0 here, not the `inf` sentinel of
`addTrend`. -/
def mkTrends (tp : List Bucket) : Trends :=
  let f := tp.headI
  let l := tp.getLastD default
  let ic := l.income - f.income
  let ec := l.expense - f.expense
  let nc := l.net - f.net
  { period_count := tp.length
    start_period := f.period
    end_period := l.period
    income_change := ic
    income_change_pct := if 0 < f.income then ic / f.income * 100 else 0
    expense_change := ec
    expense_change_pct := if 0 < f.expense then ec / f.expense * 100 else 0
    net_change := nc
    net_change_pct := if f.net ≠ 0 then nc / |f.net| * 100 else 0
    income_trend := if 0 < ic then "increasing" else if ic < 0 then "decreasing" else "stable"
    expense_trend := if 0 < ec then "increasing" else if ec < 0 then "decreasing" else "stable"
    net_trend := if 0 < nc then "improving" else if nc < 0 then "worsening" else "stable" }

/-- Zero-pad to two digits (for `%m`). -/
def pad2 (n : Nat) : String := if n < 10 then "0" ++ toString n else toString n

/-- Zero-pad to four digits (for `%Y`). -/
def pad4 (n : Nat) : String :=
  if n < 10 then "000" ++ toString n
  else if n < 100 then "00" ++ toString n
  else if n < 1000 then "0" ++ toString n
  else toString n

/-- The `'%Y-%m'` month label. -/
def fmtMonth (ym : Nat × Nat) : String := pad4 ym.1 ++ "-" ++ pad2 ym.2

/-- Distinct `(year, month)` keys of the dated rows, sorted — the group
iteration order of `groupby('month')` on the `'%Y-%m'` labels (for
four-digit years and months ≤ 12 the lexicographic label order coincides
with this numeric order). -/
def monthKeys (rows : List Row) : List (Nat × Nat) :=
  List.insertionSort (fun a b => a.1 < b.1 ∨ (a.1 = b.1 ∧ a.2 ≤ b.2))
    ((rows.filterMap (fun r => r.date.map (fun d => (d.year, d.month)))).dedup)

/-- The rows of one month group. -/
def monthRows (ym : Nat × Nat) (rows : List Row) : List Row :=
  rows.filter (fun r => match r.date with
    | some d => d.year = ym.1 && d.month = ym.2
    | none => false)

/-- One un-annotated monthly bucket, as the monthly loop of
`summarize_financial_data` builds it (subcategory grouping, else description
grouping, else no breakdown). -/
def mkBucket (ct : Table) (ym : Nat × Nat) : Bucket :=
  let mrows := monthRows ym ct.rows
  let irows := mrows.filter (fun r => r.category = "Income")
  let erows := mrows.filter (fun r => r.category = "Expense")
  let income := sumCat "Income" mrows
  let expense := |sumCat "Expense" mrows|
  { period := fmtMonth ym
    income := income
    expense := expense
    net := income - expense
    income_categories :=
      if ct.hasSubcategory then groupSums (·.subcategory) id irows
      else if ct.hasDescription then groupSums (·.description) id irows
      else []
    expense_categories :=
      if ct.hasSubcategory then groupSums (·.subcategory) (fun q => |q|) erows
      else if ct.hasDescription then groupSums (·.description) (fun q => |q|) erows
      else []
    income_change := none, income_change_pct := none
    expense_change := none, expense_change_pct := none
    net_change := none, net_change_pct := none }

/-- The smaller of two dates (for the `min()` fold). -/
def minDate (rows : List Row) : Option Date :=
  (rows.filterMap (·.date)).foldr
    (fun d acc => match acc with
      | none => some d
      | some e => if Date.leb d e then some d else some e) none

/-- The larger of two dates (for the `max()` fold). -/
def maxDate (rows : List Row) : Option Date :=
  (rows.filterMap (·.date)).foldr
    (fun d acc => match acc with
      | none => some d
      | some e => if Date.leb e d then some d else some e) none

/-- The string keys of the dict `calculate_balance_sheet` returns. -/
def balanceSheetKeys : List String :=
  ["total_assets", "total_liabilities", "total_equity", "as_of_date"]

/-- The mapping-valued `balance_sheet.get(key, {})` lookup performed by the
summary aggregator: none of the balance-sheet dict's keys (see
`balanceSheetKeys`) holds a mapping — the requested keys `"assets"` and
`"liabilities"` are not keys of the dict at all — so every such lookup
returns the `{}` default. -/
def balanceSheetGetMapping (key : String) : List (String × ℚ) :=
  if key ∈ balanceSheetKeys then
    -- present keys all hold scalars or a date string, never a mapping
    []
  else
    -- absent key: `.get` returns the `{}` default
    []

/-- The composite summary (`summarize_financial_data`'s dict).  `assets` and
`liabilities` come from `balance_sheet.get('assets', {})` /
`.get('liabilities', {})`; the balance-sheet dict has no such keys, so the
lookups always produce the default empty mapping. -/
structure Summary where
  transaction_count : Nat
  date_start : Option Date
  date_end : Option Date
  average_transaction : ℚ
  income_total : ℚ
  expense_total : ℚ
  net_income : ℚ
  income_categories : List (String × ℚ)
  expense_categories : List (String × ℚ)
  assets : List (String × ℚ)
  liabilities : List (String × ℚ)
  equity : ℚ
  financial_ratios : Ratios
  time_periods : List Bucket
  income_statement : Except String IncomeStatement
  balance_sheet : BalanceSheet
  cash_flow : CashFlow
  trends : Option Trends
deriving Repr

/-- The annotated chronological bucket list `time_periods` that
`summarize_financial_data` builds (empty without a `date` column). -/
def summaryBuckets (t : Table) : List Bucket :=
  if t.hasDate then
    annotate ((monthKeys (categorize_transactions t).rows).map
      (mkBucket (categorize_transactions t)))
  else []

/-- Model of `summarize_financial_data`.  The one abort path of the Python
function is modelled by the `Except.error` branch: when a `date` column
exists, at least one month group forms, and the classified table is missing
`category` or `amount`, the loop body's `month_df[month_df['category'] ==
'Income']['amount']` raises a `KeyError`. -/
def summarize_financial_data (t : Table) : Except String Summary :=
  let is := calculate_income_statement t none none
  let bs := calculate_balance_sheet t none
  let cf := calculate_cash_flow t none none
  let ratios := calculate_financial_ratios t
  let ct := categorize_transactions t
  let classified := ct.hasCategory && ct.hasAmount
  let irows := ct.rows.filter (fun r => r.category = "Income")
  let erows := ct.rows.filter (fun r => r.category = "Expense")
  let incomeByCat : List (String × ℚ) :=
    if classified then
      if ct.hasSubcategory then groupSums (·.subcategory) id irows
      else if ct.hasDescription then groupSums (·.description) id irows
      else [("General Income", sumCat "Income" ct.rows)]
    else []
  let expenseByCat : List (String × ℚ) :=
    if classified then
      if ct.hasSubcategory then groupSums (·.subcategory) (fun q => |q|) erows
      else if ct.hasDescription then groupSums (·.description) (fun q => |q|) erows
      else [("General Expenses", |sumCat "Expense" ct.rows|)]
    else []
  if t.hasDate && !(monthKeys ct.rows).isEmpty && !classified then
    Except.error "KeyError: category"
  else
    let tp := summaryBuckets t
    Except.ok
      { transaction_count := t.rows.length
        date_start := if t.hasDate then minDate t.rows else none
        date_end := if t.hasDate then maxDate t.rows else none
        average_transaction :=
          if t.hasAmount && !t.rows.isEmpty then
            (t.rows.foldr (fun r acc => r.amount + acc) 0) / (t.rows.length : ℚ)
          else 0
        income_total := isGet is (·.total_income)
        expense_total := isGet is (·.total_expenses)
        net_income := isGet is (·.net_income)
        income_categories := incomeByCat
        expense_categories := expenseByCat
        assets := balanceSheetGetMapping "assets"
        liabilities := balanceSheetGetMapping "liabilities"
        equity := bs.total_equity
        financial_ratios := ratios
        time_periods := tp
        income_statement := is
        balance_sheet := bs
        cash_flow := cf
        trends := if 1 < tp.length then some (mkTrends tp) else none }

/-! ## Validator / normalizer model (`src/utils/data_utils.py`)

The validator sees the table as uploaded, so its cells may still be raw
text.  A `date` cell is raw text, a parsed datetime, or null (`NaT`); an
`amount` cell is raw text, a number, or null (`NaN`).  `pd.to_datetime` /
`pd.to_numeric` are modelled on the `YYYY-MM-DD` and decimal-literal
fragments of their accepted formats. -/

/-- A cell of the `date` column. -/
inductive DCell where
  | raw : String → DCell
  | dt : Date → DCell
  | null : DCell
deriving DecidableEq, Repr

/-- A cell of the `amount` column. -/
inductive ACell where
  | raw : String → ACell
  | num : ℚ → ACell
  | null : ACell
deriving DecidableEq, Repr

/-- Split a character list on a separator (for the cell parsers). -/
def splitChar (sep : Char) : List Char → List (List Char)
  | [] => [[]]
  | c :: cs =>
    let r := splitChar sep cs
    if c = sep then [] :: r else (c :: r.headI) :: r.tail

/-- Numeric value of a non-empty all-digit character list. -/
def digitsVal (l : List Char) : Option Nat :=
  if !l.isEmpty && l.all Char.isDigit then
    some (l.foldl (fun acc c => acc * 10 + (c.toNat - 48)) 0)
  else none

/-- Parser for `YYYY-MM-DD` date strings — the modelled fragment of the
formats `pd.to_datetime` accepts. -/
def parseDateString (s : String) : Option Date :=
  match splitChar '-' s.data with
  | [y, m, d] =>
    match digitsVal y, digitsVal m, digitsVal d with
    | some yn, some mn, some dn =>
      if 1 ≤ mn && mn ≤ 12 && 1 ≤ dn && dn ≤ 31 then some ⟨yn, mn, dn⟩ else none
    | _, _, _ => none
  | _ => none

/-- Parser for decimal number strings (optional minus sign, optional
fractional part) — the modelled fragment of `pd.to_numeric`. -/
def parseRatString (s : String) : Option ℚ :=
  let core : List Char → Option ℚ := fun l =>
    match splitChar '.' l with
    | [ip] => (digitsVal ip).map (fun n => (n : ℚ))
    | [ip, fp] =>
      match digitsVal ip, digitsVal fp with
      | some i, some f => some ((i : ℚ) + (f : ℚ) / ((10 : ℚ) ^ fp.length))
      | _, _ => none
    | _ => none
  match s.data with
  | '-' :: rest => (core rest).map (fun q => -q)
  | l => core l

/-- Strict `pd.to_datetime` on one cell: `none` models the raised parse
error; `NaT` and already-parsed cells pass through unchanged. -/
def toDatetimeStrict : DCell → Option DCell
  | DCell.raw s => (parseDateString s).map DCell.dt
  | DCell.dt d => some (DCell.dt d)
  | DCell.null => some DCell.null

/-- Strict `pd.to_numeric` on one cell. -/
def toNumericStrict : ACell → Option ACell
  | ACell.raw s => (parseRatString s).map ACell.num
  | ACell.num q => some (ACell.num q)
  | ACell.null => some ACell.null

/-- Cell semantics of `pd.to_datetime(..., errors='coerce')`: parse failures
become `NaT` instead of raising. -/
def toDatetimeCoerce : DCell → DCell
  | DCell.raw s =>
    match parseDateString s with
    | some d => DCell.dt d
    | none => DCell.null
  | c => c

/-- Cell semantics of `pd.to_numeric(..., errors='coerce')`. -/
def toNumericCoerce : ACell → ACell
  | ACell.raw s =>
    match parseRatString s with
    | some q => ACell.num q
    | none => ACell.null
  | c => c

/-- Is the cell already past coercion (datetime or null, not raw text)? -/
def DCell.coerced : DCell → Bool
  | DCell.raw _ => false
  | _ => true

/-- Is the cell already numeric or null? -/
def ACell.coerced : ACell → Bool
  | ACell.raw _ => false
  | _ => true

/-- A raw uploaded row for the validator/normalizer: the three required
columns plus the derived `month`, `year` and `month_year` slots
(`none` = NaN in a numeric column, a missing value in the object column). -/
structure VRow where
  date : DCell
  amount : ACell
  description : String
  month : Option Nat
  year : Option Nat
  month_year : Option String
deriving DecidableEq, Repr

/-- The uploaded table: rows plus column-presence flags. -/
structure VTable where
  hasDate : Bool
  hasAmount : Bool
  hasDescription : Bool
  hasMonth : Bool
  hasYear : Bool
  hasMonthYear : Bool
  rows : List VRow
deriving DecidableEq, Repr

/-- Column-wide strict date coercion, `none` when any cell raises. -/
def coerceDatesStrict (rows : List VRow) : Option (List VRow) :=
  rows.mapM (fun r => (toDatetimeStrict r.date).map (fun c => { r with date := c }))

/-- Column-wide strict numeric coercion. -/
def coerceAmountsStrict (rows : List VRow) : Option (List VRow) :=
  rows.mapM (fun r => (toNumericStrict r.amount).map (fun c => { r with amount := c }))

/-- Model of `validate_transaction_data`: the returned triple is
`(is_valid, message, post-call table)` — the Python function assigns the
coerced `date` and `amount` columns back into the *caller's* DataFrame
before the remaining checks run, so the third component is the caller's
table after the call (message texts abbreviated). -/
def validate_transaction_data (t : VTable) : Bool × String × VTable :=
  if !(t.hasDate && t.hasAmount && t.hasDescription) then
    (false, "Missing required columns", t)
  else
    match coerceDatesStrict t.rows with
    | none => (false, "Date column could not be parsed", t)
    | some rows1 =>
      match coerceAmountsStrict rows1 with
      | none => (false, "Amount column could not be converted to numbers",
                 { t with rows := rows1 })
      | some rows2 =>
        if rows2.isEmpty then
          (false, "The uploaded file contains no data", { t with rows := rows2 })
        else if rows2.any (fun r => r.date = DCell.null) then
          (false, "The date column contains missing values", { t with rows := rows2 })
        else if rows2.any (fun r => r.amount = ACell.null) then
          (false, "The amount column contains missing values", { t with rows := rows2 })
        else
          (true, "Data validation successful.", { t with rows := rows2 })

/-- Fill policy of the normalizer: numeric columns (`amount`, `month`,
`year`) fill nulls with 0, the object `month_year` column with the empty
string; the datetime `date` column is not filled (its dtype is neither
int64/float64 nor object). -/
def fillRow (hasAmount hasMonth hasYear hasMonthYear : Bool) (r : VRow) : VRow :=
  { r with
    amount := if hasAmount then
        (match r.amount with | ACell.null => ACell.num 0 | c => c)
      else r.amount
    month := if hasMonth then some (r.month.getD 0) else r.month
    year := if hasYear then some (r.year.getD 0) else r.year
    month_year := if hasMonthYear then some (r.month_year.getD "") else r.month_year }

/-- Derivation of `month`, `year` and `month_year` from the coerced date
(`NaT` dates yield nulls in all three columns). -/
def deriveRow (r : VRow) : VRow :=
  { r with
    month := match r.date with | DCell.dt d => some d.month | _ => none
    year := match r.date with | DCell.dt d => some d.year | _ => none
    month_year := match r.date with
      | DCell.dt d => some (fmtMonth (d.year, d.month))
      | _ => none }

/-- Comparison of date cells for `sort_values(by='date')`: dated rows in
date order, `NaT` last (`na_position='last'`); raw cells cannot survive
coercion and are ordered arbitrarily but totally. -/
def dateCellLe (a b : DCell) : Bool :=
  match a, b with
  | DCell.raw _, _ => true
  | _, DCell.raw _ => false
  | DCell.dt x, DCell.dt y => Date.leb x y
  | DCell.dt _, DCell.null => true
  | DCell.null, DCell.dt _ => false
  | DCell.null, DCell.null => true

/-- The row sort relation (by the `date` column). -/
def rowLeR (a b : VRow) : Prop := dateCellLe a.date b.date = true

instance : DecidableRel rowLeR := fun a b => by unfold rowLeR; infer_instance

/-- The contract pandas documents for `sort_values(by='date')` under every
`kind`: the output is a permutation of the input rows that is sorted by the
date key.  The default `kind='quicksort'` is **unstable** — the relative
order of rows with equal dates is an implementation detail of numpy's
introsort — so the applied sort is modelled as a parameter satisfying this
contract rather than as one fixed tie order. -/
def IsSortImpl (sort : List VRow → List VRow) : Prop :=
  (∀ l, List.Perm (sort l) l) ∧ ∀ l, List.Sorted rowLeR (sort l)

/-- Model of `preprocess_transaction_data`, parametrized by the sort
implementation `sort_values` applies: coerce `date` and `amount` (cell
failures become nulls), fill nulls per column dtype, derive the
`month`/`year`/`month_year` columns, and sort by date. -/
def preprocess_transaction_data_with (sort : List VRow → List VRow) (t : VTable) : VTable :=
  let rows1 := if t.hasDate then
      t.rows.map (fun r => { r with date := toDatetimeCoerce r.date }) else t.rows
  let rows2 := if t.hasAmount then
      rows1.map (fun r => { r with amount := toNumericCoerce r.amount }) else rows1
  let rows3 := rows2.map (fillRow t.hasAmount t.hasMonth t.hasYear t.hasMonthYear)
  let rows4 := if t.hasDate then rows3.map deriveRow else rows3
  let rows5 := if t.hasDate then sort rows4 else rows4
  { t with
    hasMonth := t.hasMonth || t.hasDate
    hasYear := t.hasYear || t.hasDate
    hasMonthYear := t.hasMonthYear || t.hasDate
    rows := rows5 }

/-- The executable instance of the normalizer used for concrete
computations in this file: the stable insertion sort, i.e. the behaviour of
`sort_values(kind='stable')`; the default quicksort satisfies the same
`IsSortImpl` contract but may permute tied rows. -/
def preprocess_transaction_data : VTable → VTable :=
  preprocess_transaction_data_with (List.insertionSort rowLeR)

/-- A sort implementation satisfying the `sort_values` contract that — like
numpy's quicksort on runs of equal keys — is not stable: it reverses the
rows before a stable sort, so tied rows come out in reversed relative
order. -/
def reversingSort (l : List VRow) : List VRow :=
  List.insertionSort rowLeR l.reverse

/-- The per-bucket trend policy claimed for consecutive buckets `p`, `c` of
the `time_periods` list: deltas are current − previous; for income and
expense, a zero prior value yields percentage 0 when the change is 0 and the
unbounded-increase sentinel otherwise; the net percentage uses
`abs(previous net)` as its base, with the same zero-handling. -/
def trendPolicy (p c : Bucket) : Prop :=
  c.income_change = some (c.income - p.income) ∧
  c.expense_change = some (c.expense - p.expense) ∧
  c.net_change = some (c.net - p.net) ∧
  (p.income = 0 → c.income_change_pct =
    some (if c.income - p.income = 0 then Pct.num 0 else Pct.inf)) ∧
  (p.expense = 0 → c.expense_change_pct =
    some (if c.expense - p.expense = 0 then Pct.num 0 else Pct.inf)) ∧
  c.net_change_pct = some (if p.net = 0 then
    (if c.net - p.net = 0 then Pct.num 0 else Pct.inf)
    else Pct.num ((c.net - p.net) / |p.net| * 100))

/-- The `time_periods` list of a summarize result (empty for the abort
path). -/
def timePeriodsOf : Except String Summary → List Bucket
  | Except.ok s => s.time_periods
  | Except.error _ => []

/-! ### Concrete example tables used by the claim theorems and witnesses -/

/-- Two pre-categorized monthly rows whose first month has income 0: the
bucket-level percentage rule flags the income rise as unbounded, while the
overall trends block maps the same comparison to 0. -/
def exZeroFirst : Table :=
  { hasDate := true, hasAmount := true, hasDescription := false, hasCategory := true,
    hasSubcategory := false, hasAccountType := false, hasTransactionType := false,
    rows := [
      { Row.base with date := some ⟨2023, 1, 1⟩, amount := -5, category := "Expense" },
      { Row.base with date := some ⟨2023, 2, 1⟩, amount := 10, category := "Income" }] }

/-- The first (January) bucket `summarize_financial_data exZeroFirst`
produces. -/
def bucketJan : Bucket :=
  { period := "2023-01", income := 0, expense := 5, net := -5,
    income_categories := [], expense_categories := [],
    income_change := none, income_change_pct := none,
    expense_change := none, expense_change_pct := none,
    net_change := none, net_change_pct := none }

/-- The second (February) bucket, annotated against January. -/
def bucketFeb : Bucket :=
  { period := "2023-02", income := 10, expense := 0, net := 10,
    income_categories := [], expense_categories := [],
    income_change := some 10, income_change_pct := some Pct.inf,
    expense_change := some (-5), expense_change_pct := some (Pct.num (-100)),
    net_change := some 15, net_change_pct := some (Pct.num 300) }

/-- The full summary `summarize_financial_data exZeroFirst` produces. -/
def summaryZeroFirst : Summary :=
  { transaction_count := 2
    date_start := some ⟨2023, 1, 1⟩
    date_end := some ⟨2023, 2, 1⟩
    average_transaction := 5 / 2
    income_total := 10
    expense_total := 5
    net_income := 5
    income_categories := [("General Income", 10)]
    expense_categories := [("General Expenses", 5)]
    assets := []
    liabilities := []
    equity := 5
    financial_ratios :=
      { profit_margin := 1 / 2, return_on_assets := 1 / 2, return_on_equity := 1,
        debt_to_equity := 1, asset_to_liability := 2 }
    time_periods := [bucketJan, bucketFeb]
    income_statement := Except.ok
      { total_income := 10, total_expenses := 5, net_income := 5,
        expense_breakdown := [], income_breakdown := [] }
    balance_sheet := { total_assets := 10, total_liabilities := 5, total_equity := 5 }
    cash_flow := { operating_cash_flow := 5, investing_cash_flow := 0,
                   financing_cash_flow := 0, net_cash_flow := 5 }
    trends := some
      { period_count := 2, start_period := "2023-01", end_period := "2023-02",
        income_change := 10, income_change_pct := 0,
        expense_change := -5, expense_change_pct := -100,
        net_change := 15, net_change_pct := 300,
        income_trend := "increasing", expense_trend := "decreasing",
        net_trend := "improving" } }

/-- A single asset-like transaction: the balance sheet totals are non-zero,
so the promised `assets`/`liabilities` name-to-amount mappings of the
composite summary could not both be empty. -/
def exAsset : Table :=
  { hasDate := true, hasAmount := true, hasDescription := true, hasCategory := false,
    hasSubcategory := false, hasAccountType := false, hasTransactionType := false,
    rows := [
      { Row.base with date := some ⟨2023, 1, 1⟩, amount := 1000,
                      description := "Cash" }] }

/-- A dated table with an `amount` column but no `description` and no
`category`: classification cannot run, yet a month group forms, so the
monthly loop of `summarize_financial_data` hits its `KeyError`. -/
def exDatedUnclassified : Table :=
  { hasDate := true, hasAmount := true, hasDescription := false, hasCategory := false,
    hasSubcategory := false, hasAccountType := false, hasTransactionType := false,
    rows := [{ Row.base with date := some ⟨2023, 1, 1⟩, amount := 5 }] }

/-- The same missing-category situation without a `date` column: the
monthly loop is skipped, so `summarize_financial_data` completes. -/
def exUndatedUnclassified : Table :=
  { hasDate := false, hasAmount := true, hasDescription := false, hasCategory := false,
    hasSubcategory := false, hasAccountType := false, hasTransactionType := false,
    rows := [{ Row.base with amount := 5 }] }

/-- C3 witness: on the spec's concrete four-row example the aggregate is
returned and satisfies all the equalities. -/
def exScenario : Table :=
  { hasDate := true, hasAmount := true, hasDescription := true, hasCategory := true,
    hasSubcategory := false, hasAccountType := false, hasTransactionType := false,
    rows := [
      { Row.base with date := some ⟨2023, 1, 1⟩, amount := 1000,
                      description := "Salary", category := "Income" },
      { Row.base with date := some ⟨2023, 1, 15⟩, amount := -250,
                      description := "Rent", category := "Expense" },
      { Row.base with date := some ⟨2023, 2, 1⟩, amount := 1500,
                      description := "Sale", category := "Income" },
      { Row.base with date := some ⟨2023, 2, 15⟩, amount := -340,
                      description := "Utility", category := "Expense" }] }

/-- The aggregate the example scenario produces. -/
def exScenarioIS : IncomeStatement :=
  { total_income := 2500, total_expenses := 590, net_income := 1910,
    expense_breakdown := [], income_breakdown := [] }

/-- Table for the C4 witness: three rows covering the three signs. -/
def exSigns : Table :=
  { hasDate := false, hasAmount := true, hasDescription := true, hasCategory := false,
    hasSubcategory := false, hasAccountType := false, hasTransactionType := false,
    rows := [
      { Row.base with amount := 7, description := "salary deposit" },
      { Row.base with amount := -3, description := "fee" },
      { Row.base with amount := 0, description := "noop" }] }

/-- C1 counterexample table: a single pre-categorized `Income` row with a
negative amount makes `total_income = -10` — a non-positive denominator —
yet `profit_margin = (-10)/(-10) = 1`, not 0. -/
def exNegIncome : Table :=
  { hasDate := false, hasAmount := true, hasDescription := false, hasCategory := true,
    hasSubcategory := false, hasAccountType := false, hasTransactionType := false,
    rows := [{ Row.base with amount := -10, category := "Income" }] }

/-- Empty classified table: `total_income = 0`. -/
def exEmpty : Table :=
  { hasDate := false, hasAmount := true, hasDescription := false, hasCategory := true,
    hasSubcategory := false, hasAccountType := false, hasTransactionType := false,
    rows := [] }

/-! ### Claim C2: balance identity -/

/-- C2: for every input table, with or without an `account_type` column and
with or without an `as_of` filter, the balance sheet satisfies
`total_assets = total_liabilities + total_equity`, because equity is
constructed as assets − liabilities in every bucketing path. -/
theorem balance_identity (t : Table) (asOf? : Option Date) :
    (calculate_balance_sheet t asOf?).total_assets =
      (calculate_balance_sheet t asOf?).total_liabilities +
        (calculate_balance_sheet t asOf?).total_equity := by
  simp only [calculate_balance_sheet]
  split <;> split <;> (try split) <;> simp

/-! ### Claim C3: net income consistency -/

/-- C3: whenever `calculate_income_statement` returns an aggregate, its
`net_income` equals `total_income − total_expenses` exactly, `total_income`
is the sum of the amounts of the `Income` rows of the filtered view,
`total_expenses` is the absolute value of the summed amounts of the
`Expense` rows, and (when a date column exists) the filtered view keeps
exactly the classified rows inside the inclusive `[start, end]` range. -/
theorem net_income_consistency (t : Table) (start? end? : Option Date)
    (st : IncomeStatement)
    (h : calculate_income_statement t start? end? = Except.ok st) :
    st.net_income = st.total_income - st.total_expenses ∧
    st.total_income = sumCat "Income" (filteredView t start? end?).rows ∧
    st.total_expenses = |sumCat "Expense" (filteredView t start? end?).rows| ∧
    (t.hasDate = true →
      (filteredView t start? end?).rows =
        (categorize_transactions t).rows.filter (inRange start? end?)) := by
  simp only [calculate_income_statement] at h
  split at h
  · cases h
    refine ⟨rfl, rfl, rfl, fun hd => ?_⟩
    unfold filteredView
    simp [hd]
  · cases h



theorem net_income_consistency_witness :
    exScenarioIS.net_income = exScenarioIS.total_income - exScenarioIS.total_expenses ∧
    exScenarioIS.total_income = sumCat "Income" (filteredView exScenario none none).rows ∧
    exScenarioIS.total_expenses = |sumCat "Expense" (filteredView exScenario none none).rows| ∧
    (exScenario.hasDate = true →
      (filteredView exScenario none none).rows =
        (categorize_transactions exScenario).rows.filter (inRange none none)) :=
  net_income_consistency exScenario none none exScenarioIS (by with_unfolding_all rfl)

/-! ### Claim C4: sign-driven classification -/

/-- Helper: the row classifier, keyword branches and all, is the pure
sign function of the amount. -/
theorem assign_category_eq_sign (r : Row) :
    assign_category r = signCategory r.amount := by
  unfold assign_category signCategory
  simp only [ite_self]

/-- C4: on a table without a pre-existing `category` column (and with the
`description` and `amount` columns that enable the default classification
path), every row's assigned category is the pure sign function of its
amount — the keyword lists never change the outcome — hence every
classified row has category in {Income, Expense, Unknown} and `Unknown`
occurs exactly when the amount is 0. -/
theorem sign_classification (t : Table) (h1 : t.hasCategory = false)
    (h2 : t.hasDescription = true) (h3 : t.hasAmount = true) :
    (categorize_transactions t).rows.map (·.category) =
      t.rows.map (fun r => signCategory r.amount) ∧
    ∀ r ∈ (categorize_transactions t).rows,
      (r.category = "Income" ∨ r.category = "Expense" ∨ r.category = "Unknown") ∧
      (r.category = "Unknown" ↔ r.amount = 0) := by
  constructor
  · unfold categorize_transactions
    simp [h1, h2, h3, assign_category_eq_sign]
  · intro r hr
    unfold categorize_transactions at hr
    simp [h1, h2, h3] at hr
    obtain ⟨r0, -, rfl⟩ := hr
    simp only [assign_category_eq_sign]
    rcases lt_trichotomy (0 : ℚ) r0.amount with hlt | heq | hgt
    · have hc : signCategory r0.amount = "Income" := by
        unfold signCategory; rw [if_pos hlt]
      rw [hc]
      exact ⟨Or.inl rfl, fun hx => absurd hx (by decide),
        fun h0 => absurd (h0 ▸ hlt) (lt_irrefl 0)⟩
    · have hc : signCategory r0.amount = "Unknown" := by
        unfold signCategory
        rw [if_neg (by rw [← heq]; exact lt_irrefl 0),
          if_neg (by rw [← heq]; exact lt_irrefl 0)]
      rw [hc]
      exact ⟨Or.inr (Or.inr rfl), fun _ => heq.symm, fun _ => rfl⟩
    · have hc : signCategory r0.amount = "Expense" := by
        unfold signCategory
        rw [if_neg (not_lt.mpr (le_of_lt hgt)), if_pos hgt]
      rw [hc]
      exact ⟨Or.inr (Or.inl rfl), fun hx => absurd hx (by decide),
        fun h0 => absurd (h0 ▸ hgt) (lt_irrefl 0)⟩


theorem sign_classification_witness :
    (categorize_transactions exSigns).rows.map (·.category) =
      exSigns.rows.map (fun r => signCategory r.amount) ∧
    ∀ r ∈ (categorize_transactions exSigns).rows,
      (r.category = "Income" ∨ r.category = "Expense" ∨ r.category = "Unknown") ∧
      (r.category = "Unknown" ↔ r.amount = 0) :=
  sign_classification exSigns rfl rfl rfl

/-! ### Claim C1: zero-denominator ratio policy -/


/-- C1 counterexample: the claim says a ratio with a zero *or non-positive*
denominator evaluates to 0; with `total_income = -10` (non-positive) the
code computes `profit_margin = 1`. -/
theorem ratio_nonpositive_denominator_counterexample :
    isGet (calculate_income_statement exNegIncome none none) (·.total_income) = -10 ∧
    (calculate_financial_ratios exNegIncome).profit_margin = 1 := by
  constructor
  · with_unfolding_all rfl
  · with_unfolding_all rfl

/-- C1 amended: ratio computation is a total function into ℚ (it cannot
raise and cannot produce an infinity), a ratio whose denominator is exactly
zero evaluates to 0 — in particular `total_income = 0` forces
`profit_margin = 0` — and a *non-zero* (even negative) denominator yields
the ordinary quotient. -/
theorem ratio_zero_denominator_policy (t : Table) :
    (isGet (calculate_income_statement t none none) (·.total_income) = 0 →
      (calculate_financial_ratios t).profit_margin = 0) ∧
    (isGet (calculate_income_statement t none none) (·.total_income) ≠ 0 →
      (calculate_financial_ratios t).profit_margin =
        isGet (calculate_income_statement t none none) (·.net_income) /
          isGet (calculate_income_statement t none none) (·.total_income)) ∧
    ((calculate_balance_sheet t none).total_assets = 0 →
      (calculate_financial_ratios t).return_on_assets = 0) ∧
    ((calculate_balance_sheet t none).total_equity = 0 →
      (calculate_financial_ratios t).return_on_equity = 0 ∧
        (calculate_financial_ratios t).debt_to_equity = 0) ∧
    ((calculate_balance_sheet t none).total_liabilities = 0 →
      (calculate_financial_ratios t).asset_to_liability = 0) := by
  unfold calculate_financial_ratios
  refine ⟨fun h => ?_, fun h => ?_, fun h => ?_, fun h => ⟨?_, ?_⟩, fun h => ?_⟩ <;>
    simp [h]


theorem ratio_zero_denominator_policy_witness :
    (calculate_financial_ratios exEmpty).profit_margin = 0 :=
  (ratio_zero_denominator_policy exEmpty).1 (by with_unfolding_all rfl)

/-! ### Claim C7: validation and mutation -/

/-- An uploaded table whose date cell is still raw text (the normal state
of a freshly read CSV). -/
def vexRaw : VTable :=
  { hasDate := true, hasAmount := true, hasDescription := true,
    hasMonth := false, hasYear := false, hasMonthYear := false,
    rows := [
      { date := DCell.raw "2023-01-05", amount := ACell.num 5,
        description := "x", month := none, year := none, month_year := none }] }

/-- The same table with its cells already in coerced form. -/
def vexCoerced : VTable :=
  { hasDate := true, hasAmount := true, hasDescription := true,
    hasMonth := false, hasYear := false, hasMonthYear := false,
    rows := [
      { date := DCell.dt ⟨2023, 1, 5⟩, amount := ACell.num 5,
        description := "x", month := none, year := none, month_year := none }] }

/-- Two rows sharing one date — tied sort keys, distinguishable by amount
and description — on which an unstable sort's tie order is observable. -/
def exTiedDates : VTable :=
  { hasDate := true, hasAmount := true, hasDescription := true,
    hasMonth := false, hasYear := false, hasMonthYear := false,
    rows := [
      { date := DCell.dt ⟨2023, 1, 1⟩, amount := ACell.num 1,
        description := "a", month := none, year := none, month_year := none },
      { date := DCell.dt ⟨2023, 1, 1⟩, amount := ACell.num 2,
        description := "b", month := none, year := none, month_year := none }] }

/-! ### Claim C5: per-bucket percentage-change policy -/

/-- Helper: one step of the trend loop establishes the policy between the
previous bucket and the newly annotated current bucket. -/
theorem trendPolicy_addTrend (p c : Bucket) : trendPolicy p (addTrend p c) := by
  unfold trendPolicy addTrend
  refine ⟨rfl, rfl, rfl, fun h0 => ?_, fun h0 => ?_, ?_⟩
  · simp [h0]
  · simp [h0]
  · by_cases hn : p.net = 0
    · simp [hn]
    · simp [hn]

/-- Helper: the whole annotated tail satisfies the policy pairwise. -/
theorem chain'_addTrends (bs : List Bucket) : ∀ prev,
    List.Chain' trendPolicy (prev :: addTrends prev bs) := by
  induction bs with
  | nil => intro prev; simp [addTrends]
  | cons c cs ih =>
    intro prev
    simp only [addTrends]
    rw [List.chain'_cons]
    exact ⟨trendPolicy_addTrend prev c, ih (addTrend prev c)⟩

/-- Helper: annotation of any chronological bucket list yields a list whose
consecutive pairs satisfy the policy. -/
theorem chain'_annotate (l : List Bucket) : List.Chain' trendPolicy (annotate l) := by
  cases l with
  | nil => simp [annotate]
  | cons b bs => exact chain'_addTrends bs b

/-- C5: in the `time_periods` list built by `summarize_financial_data`,
every bucket after the chronologically first carries deltas equal to
current − previous and percentage-change fields following the
zero-prior policy: prior 0 and change 0 give 0, prior 0 and non-zero change
give the unbounded-increase sentinel (income and expense), and the net
percentage uses `abs(previous net)` as base with the same zero-handling. -/
theorem pct_change_policy (t : Table) :
    List.Chain' trendPolicy (timePeriodsOf (summarize_financial_data t)) := by
  simp only [summarize_financial_data]
  split
  · simp [timePeriodsOf]
  · simp only [timePeriodsOf]
    unfold summaryBuckets
    split
    · exact chain'_annotate _
    · simp

/-! ### Claim C6: overall trends block -/

/-- C6 counterexample: on `exZeroFirst` the first bucket's income is 0 and
the last bucket's is 10; the per-bucket rule (visible on the second bucket)
yields the unbounded-increase sentinel for exactly this comparison, but the
overall trends block reports `income_change_pct = 0` — the overall block
does not use the same percentage rules. -/
theorem overall_trends_counterexample :
    (summarize_financial_data exZeroFirst).toOption.map
      (fun s => (s.time_periods.map (fun b => (b.income, b.income_change_pct)),
                 s.trends.map (fun tr => tr.income_change_pct))) =
      some ([((0 : ℚ), none), ((10 : ℚ), some Pct.inf)], some (0 : ℚ)) := by
  with_unfolding_all rfl

/-- C6 amended: when at least two buckets exist the overall trends block
compares the first and last bucket with the same *delta* rule, but its
percentage rule replaces the zero-prior sentinel by 0 (income and expense
use the quotient only when the first bucket's value is strictly positive,
net only when the first net is non-zero, else 0), and the qualitative labels
are assigned by strict sign of the delta with "stable" meaning exactly zero
delta. -/
theorem overall_trends_amended (t : Table) (s : Summary) (b0 bn : Bucket)
    (h : summarize_financial_data t = Except.ok s)
    (h0 : s.time_periods.headI = b0)
    (hn : s.time_periods.getLastD default = bn)
    (hlen : 1 < s.time_periods.length) :
    s.trends = some
      { period_count := s.time_periods.length
        start_period := b0.period
        end_period := bn.period
        income_change := bn.income - b0.income
        income_change_pct :=
          if 0 < b0.income then (bn.income - b0.income) / b0.income * 100 else 0
        expense_change := bn.expense - b0.expense
        expense_change_pct :=
          if 0 < b0.expense then (bn.expense - b0.expense) / b0.expense * 100 else 0
        net_change := bn.net - b0.net
        net_change_pct :=
          if b0.net ≠ 0 then (bn.net - b0.net) / |b0.net| * 100 else 0
        income_trend := if 0 < bn.income - b0.income then "increasing"
          else if bn.income - b0.income < 0 then "decreasing" else "stable"
        expense_trend := if 0 < bn.expense - b0.expense then "increasing"
          else if bn.expense - b0.expense < 0 then "decreasing" else "stable"
        net_trend := if 0 < bn.net - b0.net then "improving"
          else if bn.net - b0.net < 0 then "worsening" else "stable" } := by
  simp only [summarize_financial_data] at h
  split at h
  · cases h
  · injection h with hs
    subst hs
    have hlen' : 1 < (summaryBuckets t).length := hlen
    have h0' : (summaryBuckets t).headI = b0 := h0
    have hn' : (summaryBuckets t).getLastD default = bn := hn
    show (if 1 < (summaryBuckets t).length then some (mkTrends (summaryBuckets t))
          else none) = some _
    rw [if_pos hlen']
    simp only [mkTrends]
    rw [h0', hn']

theorem overall_trends_amended_witness :
    summaryZeroFirst.trends = some
      { period_count := summaryZeroFirst.time_periods.length
        start_period := bucketJan.period
        end_period := bucketFeb.period
        income_change := bucketFeb.income - bucketJan.income
        income_change_pct :=
          if 0 < bucketJan.income then
            (bucketFeb.income - bucketJan.income) / bucketJan.income * 100 else 0
        expense_change := bucketFeb.expense - bucketJan.expense
        expense_change_pct :=
          if 0 < bucketJan.expense then
            (bucketFeb.expense - bucketJan.expense) / bucketJan.expense * 100 else 0
        net_change := bucketFeb.net - bucketJan.net
        net_change_pct :=
          if bucketJan.net ≠ 0 then
            (bucketFeb.net - bucketJan.net) / |bucketJan.net| * 100 else 0
        income_trend := if 0 < bucketFeb.income - bucketJan.income then "increasing"
          else if bucketFeb.income - bucketJan.income < 0 then "decreasing" else "stable"
        expense_trend := if 0 < bucketFeb.expense - bucketJan.expense then "increasing"
          else if bucketFeb.expense - bucketJan.expense < 0 then "decreasing" else "stable"
        net_trend := if 0 < bucketFeb.net - bucketJan.net then "improving"
          else if bucketFeb.net - bucketJan.net < 0 then "worsening" else "stable" } :=
  overall_trends_amended exZeroFirst summaryZeroFirst bucketJan bucketFeb
    (by with_unfolding_all rfl) (by with_unfolding_all rfl)
    (by with_unfolding_all rfl) (by simp [summaryZeroFirst])

/-! ### Claim C9: assets/liabilities mappings of the composite summary -/

/-- C9: the composite summary's `assets` and `liabilities` fields are
*always* the empty mapping — `summarize_financial_data` looks them up as
`balance_sheet.get('assets', {})`, but the balance-sheet dict only exposes
`total_assets`/`total_liabilities`/`total_equity`, so the promised
name-to-summed-amount mappings are never populated: here the balance sheet
total is 1000, yet both mappings are empty. -/
theorem assets_mapping_code_bug :
    (summarize_financial_data exAsset).toOption.map
      (fun s => (s.assets, s.liabilities, s.balance_sheet.total_assets,
                 s.balance_sheet.total_liabilities)) =
      some ([], [], (1000 : ℚ), (0 : ℚ)) := by
  with_unfolding_all rfl

/-! ### Claim C10: error markers and the aggregator abort -/

/-- C10 counterexample: a dated single-row table with an `amount` column but
no `description`/`category` lacks `category` after classification, and
`summarize_financial_data` *aborts* (the monthly loop raises `KeyError`)
instead of returning a partial composite summary. -/
theorem summarize_abort_counterexample :
    (summarize_financial_data exDatedUnclassified).toOption = none := by
  with_unfolding_all rfl

/-- Helper: classification never adds or removes the `amount` column. -/
theorem categorize_hasAmount (t : Table) :
    (categorize_transactions t).hasAmount = t.hasAmount := by
  unfold categorize_transactions
  split
  · rfl
  · split <;> rfl

/-- C10 amended: when the classified table lacks `amount` or `category`,
the income-statement calculator returns the inline error marker rather than
raising; and provided the table has no `date` column (so the monthly loop is
skipped) `summarize_financial_data` does not abort — it returns a composite
summary whose income-statement-derived totals default to 0. -/
theorem error_marker_amended (t : Table) (hd : t.hasDate = false)
    (hmiss : (t.hasAmount && (categorize_transactions t).hasCategory) = false) :
    calculate_income_statement t none none =
      Except.error "Data format does not contain required columns (amount, category)" ∧
    (summarize_financial_data t).toOption.map
      (fun s => (s.income_total, s.expense_total, s.net_income)) =
      some ((0 : ℚ), (0 : ℚ), (0 : ℚ)) := by
  have hguard : ((categorize_transactions t).hasAmount &&
      (categorize_transactions t).hasCategory) = false := by
    rw [categorize_hasAmount]; exact hmiss
  have h1 : calculate_income_statement t none none =
      Except.error "Data format does not contain required columns (amount, category)" := by
    simp only [calculate_income_statement, filteredView, hd]
    simp [hguard]
  refine ⟨h1, ?_⟩
  simp only [summarize_financial_data, hd]
  simp only [Bool.false_and, Bool.false_eq_true, if_false]
  simp only [Except.toOption, Option.map]
  rw [h1]
  rfl

theorem error_marker_amended_witness :
    calculate_income_statement exUndatedUnclassified none none =
      Except.error "Data format does not contain required columns (amount, category)" ∧
    (summarize_financial_data exUndatedUnclassified).toOption.map
      (fun s => (s.income_total, s.expense_total, s.net_income)) =
      some ((0 : ℚ), (0 : ℚ), (0 : ℚ)) :=
  error_marker_amended exUndatedUnclassified rfl (by with_unfolding_all rfl)

/-! ### Claim C7 theorems -/

/-- C7 counterexample: `validate_transaction_data` passes on `vexRaw`
(returns `True`), yet the caller's table after the call differs from the
table before the call — the function wrote the coerced `date` column back
into the caller's DataFrame. -/
theorem validate_mutation_counterexample :
    (validate_transaction_data vexRaw).1 = true ∧
    (validate_transaction_data vexRaw).2.2 ≠ vexRaw := by
  constructor
  · with_unfolding_all rfl
  · with_unfolding_all decide

/-- Helper: strict date coercion is the identity on already-coerced
columns. -/
theorem coerceDatesStrict_id (rows : List VRow)
    (h : ∀ r ∈ rows, r.date.coerced = true) : coerceDatesStrict rows = some rows := by
  induction rows with
  | nil => rfl
  | cons r rs ih =>
    have hr := h r (List.mem_cons_self r rs)
    have hrs := ih (fun x hx => h x (List.mem_cons_of_mem r hx))
    have hcell : toDatetimeStrict r.date = some r.date := by
      cases hd : r.date with
      | raw s => rw [hd] at hr; simp [DCell.coerced] at hr
      | dt d => rfl
      | null => rfl
    simp only [coerceDatesStrict] at hrs ⊢
    rw [List.mapM_cons, hcell, hrs]
    rfl

/-- Helper: strict numeric coercion is the identity on already-coerced
columns. -/
theorem coerceAmountsStrict_id (rows : List VRow)
    (h : ∀ r ∈ rows, r.amount.coerced = true) : coerceAmountsStrict rows = some rows := by
  induction rows with
  | nil => rfl
  | cons r rs ih =>
    have hr := h r (List.mem_cons_self r rs)
    have hrs := ih (fun x hx => h x (List.mem_cons_of_mem r hx))
    have hcell : toNumericStrict r.amount = some r.amount := by
      cases hd : r.amount with
      | raw s => rw [hd] at hr; simp [ACell.coerced] at hr
      | num q => rfl
      | null => rfl
    simp only [coerceAmountsStrict] at hrs ⊢
    rw [List.mapM_cons, hcell, hrs]
    rfl

/-- C7 amended: `validate_transaction_data` mutates the caller's table only
through the in-place coercion of the `date` and `amount` columns; when both
columns are already in coerced form (datetime/numeric/null cells) the table
after the call — whatever the verdict — equals the table before it. -/
theorem validate_no_mutation_on_coerced (t : VTable)
    (hc : ∀ r ∈ t.rows, r.date.coerced = true ∧ r.amount.coerced = true) :
    (validate_transaction_data t).2.2 = t := by
  have h1 : coerceDatesStrict t.rows = some t.rows :=
    coerceDatesStrict_id _ (fun r hr => (hc r hr).1)
  have h2 : coerceAmountsStrict t.rows = some t.rows :=
    coerceAmountsStrict_id _ (fun r hr => (hc r hr).2)
  unfold validate_transaction_data
  split
  · rfl
  · rw [h1]
    simp only []
    rw [h2]
    simp only []
    split
    · rfl
    · split
      · rfl
      · split
        · rfl
        · rfl

theorem validate_no_mutation_witness :
    (validate_transaction_data vexCoerced).2.2 = vexCoerced :=
  validate_no_mutation_on_coerced vexCoerced (by
    intro r hr
    simp [vexCoerced] at hr
    subst hr
    exact ⟨rfl, rfl⟩)

/-! ### Claim C8: normalizer idempotence -/


/-- Helper: coercing a date cell never leaves raw text behind. -/
theorem toDatetimeCoerce_coerced (c : DCell) : (toDatetimeCoerce c).coerced = true := by
  cases c with
  | raw s => rcases hp : parseDateString s with _ | d <;> simp [toDatetimeCoerce, hp, DCell.coerced]
  | dt d => rfl
  | null => rfl

/-- Helper: date coercion is the identity on already-coerced cells. -/
theorem toDatetimeCoerce_id (c : DCell) (h : c.coerced = true) : toDatetimeCoerce c = c := by
  cases c with
  | raw s => simp [DCell.coerced] at h
  | dt d => rfl
  | null => rfl

/-- Helper: date coercion is idempotent. -/
theorem toDatetimeCoerce_idem (c : DCell) :
    toDatetimeCoerce (toDatetimeCoerce c) = toDatetimeCoerce c :=
  toDatetimeCoerce_id _ (toDatetimeCoerce_coerced c)

/-- Helper: coercing then zero-filling an amount cell always yields a
number. -/
theorem fill_toNumericCoerce_num (a : ACell) :
    ∃ q, (match toNumericCoerce a with | ACell.null => ACell.num 0 | c => c) = ACell.num q := by
  cases a with
  | raw s => rcases hq : parseRatString s with _ | q <;> simp [toNumericCoerce, hq]
  | num q => exact ⟨q, rfl⟩
  | null => exact ⟨0, rfl⟩

/-- Helper: a second normalizer pass (with the `month`/`year`/`month_year`
columns now present) fixes every row a first dated-with-amount pass
produced. -/
theorem prep_row_fix_dated_amt (M Y MY : Bool) (r : VRow) :
    (fun x => deriveRow (fillRow true true true true
      { x with date := toDatetimeCoerce x.date,
               amount := toNumericCoerce x.amount }))
      (deriveRow (fillRow true M Y MY
        { r with date := toDatetimeCoerce r.date,
                 amount := toNumericCoerce r.amount })) =
    deriveRow (fillRow true M Y MY
      { r with date := toDatetimeCoerce r.date,
               amount := toNumericCoerce r.amount }) := by
  obtain ⟨q, hq⟩ := fill_toNumericCoerce_num r.amount
  have hnum : toNumericCoerce (ACell.num q) = ACell.num q := rfl
  simp [fillRow, deriveRow, toDatetimeCoerce_idem, hq, hnum]


/-- Helper: same for a table without an `amount` column. -/
theorem prep_row_fix_dated_noamt (M Y MY : Bool) (r : VRow) :
    (fun x => deriveRow (fillRow false true true true
      { x with date := toDatetimeCoerce x.date }))
      (deriveRow (fillRow false M Y MY { r with date := toDatetimeCoerce r.date })) =
    deriveRow (fillRow false M Y MY { r with date := toDatetimeCoerce r.date }) := by
  simp [fillRow, deriveRow, toDatetimeCoerce_idem]

/-- Helper: without a `date` column the pass is coerce-and-fill only, and a
second application fixes its output rows. -/
theorem prep_row_fix_undated_amt (M Y MY : Bool) (r : VRow) :
    (fun x => fillRow true M Y MY { x with amount := toNumericCoerce x.amount })
      (fillRow true M Y MY { r with amount := toNumericCoerce r.amount }) =
    fillRow true M Y MY { r with amount := toNumericCoerce r.amount } := by
  obtain ⟨q, hq⟩ := fill_toNumericCoerce_num r.amount
  have hnum : toNumericCoerce (ACell.num q) = ACell.num q := rfl
  cases M <;> cases Y <;> cases MY <;> simp [fillRow, hq, hnum]

/-- Helper: the fill step alone is idempotent. -/
theorem prep_row_fix_undated_noamt (M Y MY : Bool) (r : VRow) :
    fillRow false M Y MY (fillRow false M Y MY r) = fillRow false M Y MY r := by
  cases M <;> cases Y <;> cases MY <;> simp [fillRow]

/-- The date sort relation is total. -/
theorem rowLeR_total (a b : VRow) : rowLeR a b ∨ rowLeR b a := by
  unfold rowLeR dateCellLe Date.leb
  rcases a.date with s | x | _ <;> rcases b.date with s2 | y | _ <;> simp
  exact Nat.le_total x.key y.key

/-- The date sort relation is transitive. -/
theorem rowLeR_trans (a b c : VRow) : rowLeR a b → rowLeR b c → rowLeR a c := by
  unfold rowLeR dateCellLe Date.leb
  rcases a.date with s | x | _ <;> rcases b.date with s2 | y | _ <;>
    rcases c.date with s3 | z | _ <;> simp
  exact fun h1 h2 => Nat.le_trans h1 h2

/-- Helper: mapping a function that fixes every member is the identity. -/
theorem map_fix {α : Type} {f : α → α} (l : List α) :
    (∀ a ∈ l, f a = a) → l.map f = l := by
  induction l with
  | nil => intro _; rfl
  | cons a as ih =>
    intro h
    rw [List.map_cons, h a (List.mem_cons_self a as),
      ih (fun x hx => h x (List.mem_cons_of_mem a hx))]


/-- Helper: a second map over a mapped list is absorbed when it fixes every
image. -/
theorem map_map_fix {α : Type} {f g : α → α} (hfg : ∀ r, g (f r) = f r) (rows : List α) :
    List.map g (List.map f rows) = List.map f rows := by
  refine map_fix _ ?_
  intro x hx
  obtain ⟨r, -, rfl⟩ := List.mem_map.mp hx
  exact hfg r

/-- Helper: absorption for the two-stage (coerce then fill) map pipeline. -/
theorem map2_fix {α : Type} {f1 f2 g1 g2 : α → α}
    (h : ∀ r, g2 (g1 (f2 (f1 r))) = f2 (f1 r)) (rows : List α) :
    List.map g2 (List.map g1 (List.map f2 (List.map f1 rows))) =
      List.map f2 (List.map f1 rows) := by
  rw [List.map_map, List.map_map, List.map_map, List.map_map]
  refine List.map_congr_left ?_
  intro a _
  exact h a

/-- Helper: the stable insertion sort satisfies the `sort_values`
contract. -/
theorem insertionSort_sortImpl : IsSortImpl (List.insertionSort rowLeR) := by
  haveI : IsTotal VRow rowLeR := ⟨rowLeR_total⟩
  haveI : IsTrans VRow rowLeR := ⟨rowLeR_trans⟩
  exact ⟨fun l => List.perm_insertionSort rowLeR l,
         fun l => List.sorted_insertionSort rowLeR l⟩

/-- Helper: the tie-reversing sort also satisfies the `sort_values`
contract — it is a legitimate (unstable) `kind`. -/
theorem reversingSort_sortImpl : IsSortImpl reversingSort := by
  haveI : IsTotal VRow rowLeR := ⟨rowLeR_total⟩
  haveI : IsTrans VRow rowLeR := ⟨rowLeR_trans⟩
  exact ⟨fun l => (List.perm_insertionSort rowLeR l.reverse).trans (List.reverse_perm l),
         fun l => List.sorted_insertionSort rowLeR l.reverse⟩

/-- Helper: a re-sort of a mapped sorted list absorbs a map whose function
fixes every element the first sort produced — for any sorts obeying the
contract. -/
theorem sortImpl_map_fix {sort1 : List VRow → List VRow} (h1 : IsSortImpl sort1)
    (sort2 : List VRow → List VRow) {f g : VRow → VRow}
    (hfg : ∀ r, g (f r) = f r) (rows : List VRow) :
    sort2 (List.map g (sort1 (List.map f rows))) = sort2 (sort1 (List.map f rows)) := by
  congr 1
  refine map_fix _ ?_
  intro x hx
  obtain ⟨r, -, rfl⟩ := List.mem_map.mp ((h1.1 _).mem_iff.mp hx)
  exact hfg r

/-- Helper: a second normalizer pass equals the first output with its rows
re-sorted — the coercion, fill and derivation steps fix every row the first
pass produced, whatever contract-satisfying sorts the two passes apply. -/
theorem preprocess_with_second_pass (sort1 sort2 : List VRow → List VRow)
    (h1 : IsSortImpl sort1) (t : VTable) :
    preprocess_transaction_data_with sort2 (preprocess_transaction_data_with sort1 t) =
      { preprocess_transaction_data_with sort1 t with
        rows := if t.hasDate = true then
            sort2 (preprocess_transaction_data_with sort1 t).rows
          else (preprocess_transaction_data_with sort1 t).rows } := by
  obtain ⟨D, A, dsc, M, Y, MY, rows⟩ := t
  by_cases hD : D = true <;> by_cases hA : A = true
  · subst hD; subst hA
    simp only [preprocess_transaction_data_with, if_true, Bool.or_true, List.map_map]
    congr 1
    refine sortImpl_map_fix h1 sort2 ?_ rows
    intro r
    exact prep_row_fix_dated_amt M Y MY r
  · simp only [Bool.not_eq_true] at hA
    subst hD; subst hA
    simp only [preprocess_transaction_data_with, if_true, Bool.false_eq_true, if_false,
      Bool.or_true, List.map_map]
    congr 1
    refine sortImpl_map_fix h1 sort2 ?_ rows
    intro r
    exact prep_row_fix_dated_noamt M Y MY r
  · simp only [Bool.not_eq_true] at hD
    subst hD; subst hA
    simp only [preprocess_transaction_data_with, if_true, Bool.false_eq_true, if_false,
      Bool.or_false]
    congr 1
    refine map2_fix ?_ rows
    intro r
    exact prep_row_fix_undated_amt M Y MY r
  · simp only [Bool.not_eq_true] at hD hA
    subst hD; subst hA
    simp only [preprocess_transaction_data_with, Bool.false_eq_true, if_false, Bool.or_false]
    congr 1
    refine map_map_fix ?_ rows
    intro r
    exact prep_row_fix_undated_noamt M Y MY r

/-- Helper: a dated table's normalized rows come out sorted by date. -/
theorem preprocess_with_rows_sorted (sort : List VRow → List VRow)
    (hs : IsSortImpl sort) (t : VTable) (hD : t.hasDate = true) :
    List.Sorted rowLeR (preprocess_transaction_data_with sort t).rows := by
  simp only [preprocess_transaction_data_with, hD, if_true]
  exact hs.2 _

set_option maxRecDepth 8192 in
/-- C8 counterexample: the claim "a second application yields an identical
table — same rows in the same order" fails for the default unstable sort
kind: `reversingSort` satisfies the `sort_values` contract (as numpy's
quicksort does, permuting runs of equal keys), yet on two rows sharing one
date a second pass returns the tied rows in the opposite order. -/
theorem preprocess_unstable_counterexample :
    IsSortImpl reversingSort ∧
    preprocess_transaction_data_with reversingSort
        (preprocess_transaction_data_with reversingSort exTiedDates) ≠
      preprocess_transaction_data_with reversingSort exTiedDates := by
  refine ⟨reversingSort_sortImpl, ?_⟩
  with_unfolding_all decide

/-- C8 amended: `preprocess_transaction_data` is idempotent up to the tie
order of rows sharing a date.  For any sort implementations satisfying the
`sort_values` contract (the default `kind='quicksort'` is unstable on tied
keys), a second pass returns a table with identical column flags whose rows
are exactly a re-sort of the first pass's rows — hence the same rows up to
a permutation of equal-date rows, with identical derived `month`, `year`
and `month_year` columns — and when the applied sort is stable
(`kind='stable'`, modelled by the stable insertion sort) the second pass
returns an identical table. -/
theorem preprocess_idempotent_up_to_ties (sort1 sort2 : List VRow → List VRow)
    (h1 : IsSortImpl sort1) (h2 : IsSortImpl sort2) (t : VTable) :
    preprocess_transaction_data_with sort2 (preprocess_transaction_data_with sort1 t) =
      { preprocess_transaction_data_with sort1 t with
        rows := if t.hasDate = true then
            sort2 (preprocess_transaction_data_with sort1 t).rows
          else (preprocess_transaction_data_with sort1 t).rows } ∧
    List.Perm
      (preprocess_transaction_data_with sort2
        (preprocess_transaction_data_with sort1 t)).rows
      (preprocess_transaction_data_with sort1 t).rows ∧
    preprocess_transaction_data (preprocess_transaction_data t) =
      preprocess_transaction_data t := by
  refine ⟨preprocess_with_second_pass sort1 sort2 h1 t, ?_, ?_⟩
  · rw [preprocess_with_second_pass sort1 sort2 h1 t]
    by_cases hD : t.hasDate = true
    · simp only [hD, if_true]
      exact h2.1 _
    · simp only [hD, Bool.false_eq_true, if_false]
      exact List.Perm.refl _
  · have h := preprocess_with_second_pass (List.insertionSort rowLeR)
      (List.insertionSort rowLeR) insertionSort_sortImpl t
    show preprocess_transaction_data_with _ (preprocess_transaction_data_with _ t) = _
    rw [h]
    by_cases hD : t.hasDate = true
    · rw [if_pos hD,
        List.Sorted.insertionSort_eq
          (preprocess_with_rows_sorted (List.insertionSort rowLeR) insertionSort_sortImpl t hD)]
      rfl
    · rw [if_neg hD]
      rfl

theorem preprocess_idempotent_up_to_ties_witness :
    preprocess_transaction_data_with reversingSort
        (preprocess_transaction_data_with reversingSort exTiedDates) =
      { preprocess_transaction_data_with reversingSort exTiedDates with
        rows := if exTiedDates.hasDate = true then
            reversingSort (preprocess_transaction_data_with reversingSort exTiedDates).rows
          else (preprocess_transaction_data_with reversingSort exTiedDates).rows } ∧
    List.Perm
      (preprocess_transaction_data_with reversingSort
        (preprocess_transaction_data_with reversingSort exTiedDates)).rows
      (preprocess_transaction_data_with reversingSort exTiedDates).rows ∧
    preprocess_transaction_data (preprocess_transaction_data exTiedDates) =
      preprocess_transaction_data exTiedDates :=
  preprocess_idempotent_up_to_ties reversingSort reversingSort
    reversingSort_sortImpl reversingSort_sortImpl exTiedDates
